import Mathlib

/- Shallow embedding of the two ingestion scripts of the InsightCM-to-Cognite
repository: `tdms2sequences.py` (waveform/static channels of a TDMS file) and
`trends2datapoints.py` (trend bundles: zip with assets.json, metadata.json and
chartdata.xlsx).  Remote catalog interaction is modelled by an explicit
environment (`Remote`) giving the results of the three queries the scripts
issue, and every function additionally returns the list of remote calls it
performs (`RemoteCall`), in order.  Uncaught Python exceptions are modelled by
`Except StepError`. -/

/-- Python `s.replace(" ", "_")` for the single-character pattern `" "`:
every space character is replaced by an underscore. -/
def underscoreSpaces (s : String) : String :=
  String.mk (s.toList.map fun ch => if ch = ' ' then '_' else ch)

/-- Python `int(...)` applied to a (rational-valued) float: truncation toward
zero. -/
def pyInt (q : ℚ) : Int :=
  if 0 ≤ q then q.floor else -((-q).floor)

/-- Python truthiness of an optional string value (`None` and `""` are falsy). -/
def strTruthy : Option String → Bool
  | none => false
  | some s => s != ""

/-- A datapoint as posted to CDP: millisecond timestamp and float value
(`cognite.client.stable.datapoints.Datapoint`). -/
structure Datapoint where
  timestamp : Int
  value : ℚ
  deriving DecidableEq

/-- A remote asset as returned by `client.assets.get_assets`, projected to the
fields the scripts read: `to_json()["id"]` and `to_json()["metadata"]["UID"]`
(the latter may be absent). -/
structure RemoteAsset where
  id : Nat
  uid : Option String
  deriving DecidableEq

/-- A remote timeseries as returned by `client.time_series.get_time_series`,
projected to the fields the scripts read: `to_json()["id"]` and
`to_json()["name"]` (the latter may be absent from the json). -/
structure CdpTimeseries where
  id : Nat
  name : Option String
  deriving DecidableEq

/-- A server-side sequence column (carries the server-assigned id used by
`RowValue`). -/
structure ColumnEnt where
  id : Nat
  deriving DecidableEq

/-- The entity returned by `client.experimental.sequences.post_sequences`:
server id plus the columns with their server-assigned ids. -/
structure SeqEnt where
  id : Nat
  name : String
  columns : List ColumnEnt
  deriving DecidableEq

/-- A requested sequence column: `Column(name=..., value_type=...)`. -/
structure SeqColumnSpec where
  name : String
  valueType : String
  deriving DecidableEq

/-- The sequence creation request built by `create_sequence` (the metadata bag
is not modelled; no claim refers to it). -/
structure SequenceReq where
  name : String
  assetId : Option Nat
  columns : List SeqColumnSpec
  description : String
  deriving DecidableEq

/-- A cell value inside a sequence row: `str(row[0])` renders the time index
as a string, `float(row[1].values[0])` is numeric. -/
inductive CellVal where
  | str (s : String)
  | num (q : ℚ)
  deriving DecidableEq

/-- One sequence row: `Row(i, [RowValue(colId, v), ...])`. -/
structure SeqRow where
  index : Nat
  values : List (Nat × CellVal)
  deriving DecidableEq

/-- One remote call issued by the scripts, in the order they are issued. -/
inductive RemoteCall where
  | assetQuery (uid : String)
  | tsQuery (name : String)
  | tsCreate (name : String)
  | seqCreate (name : String)
  | postDatapoints (name : String) (points : List Datapoint)
  | postRows (seqId : Nat) (rows : List SeqRow)
  deriving DecidableEq

/-- The remote catalog environment: results of the three remote queries whose
answers the scripts inspect.  `assetQueryResults uid` is what
`get_assets(metadata={"UID": uid})` returns, `tsQueryResults p` is what
`get_time_series(prefix=p, ...)` returns (a prefix query, so it may contain
entities whose names merely share the prefix), and `postSequences` is the
(falsy-or-entity) result of `post_sequences`. -/
structure Remote where
  assetQueryResults : String → List RemoteAsset
  tsQueryResults : String → List CdpTimeseries
  postSequences : SequenceReq → Option SeqEnt

/-- An uncaught Python exception escaping the per-channel processing code. -/
inductive StepError where
  | keyError (key : String)
  | stopIteration
  | indexError
  deriving DecidableEq

/-- One TDMS channel together with the merged property bag built in
`process_tdms_file` (file-level properties, channel properties, `Group`,
`Channel`), projected to the properties the script reads.  `samples` are the
rows of `channel.as_dataframe(True)`: the time index already rendered for
`str(...)`, and the numeric value.  A channel without a backing data buffer
has `samples = []`. -/
structure ChannelDesc where
  valueProp : Option String
  dateTime : Option ℚ
  niAssetName : Option String
  niAssetUid : Option String
  chanName : Option String
  channelPath : String
  timeType : String
  dataType : String
  samples : List (String × ℚ)

/-- Python `channel.has_data and channel.data.any()`: the channel has a data
buffer containing at least one non-default (non-zero) value. -/
def ChannelDesc.hasData (c : ChannelDesc) : Bool :=
  c.samples.any fun s => decide (s.2 ≠ 0)

/-- How processing of one channel ended (the script only logs these, but the
branch taken is observable). -/
inductive ChannelOutcome where
  | staticDone
  | noData
  | skippedOnlyStatic
  | seqPosted (nrows : Nat)
  | seqCreateFailed
  deriving DecidableEq

/-- Embedding of `find_cdp_asset` (trends2datapoints.py): one
`get_assets(metadata={"UID": uid})` query, client-side exact filter on the
metadata UID, first match wins. -/
def find_cdp_asset (r : Remote) (assetUid : String) : Option Nat × List RemoteCall :=
  let res := r.assetQueryResults assetUid
  (((res.filter fun a => decide (a.uid = some assetUid)).head?).map RemoteAsset.id,
   [RemoteCall.assetQuery assetUid])

/-- Embedding of `find_cdp_asset_id` (tdms2sequences.py): like
`find_cdp_asset` but guarded by `if not asset_uid: return` — a missing or
empty `NI_CM_AssetNodeId` issues no remote query at all. -/
def find_cdp_asset_id (r : Remote) (assetUid : Option String) : Option Nat × List RemoteCall :=
  match assetUid with
  | none => (none, [])
  | some uid =>
    if uid = "" then (none, [])
    else
      let res := r.assetQueryResults uid
      (((res.filter fun a => decide (a.uid = some uid)).head?).map RemoteAsset.id,
       [RemoteCall.assetQuery uid])

/-- Embedding of `find_cdp_timeseries` (identical in both scripts): one
prefix query, then a client-side filter for an exact `name` match; the first
exact match is returned, `None` otherwise. -/
def find_cdp_timeseries (r : Remote) (name : String) : Option CdpTimeseries × List RemoteCall :=
  let res := r.tsQueryResults name
  ((res.filter fun i => decide (i.name = some name)).head?, [RemoteCall.tsQuery name])

/-- Timeseries name used for a static TDMS value (tdms2sequences.py line 99):
`asset_name.replace(" ", "_")` — the asset display name alone. -/
def static_ts_name (assetName : String) : String :=
  underscoreSpaces assetName

/-- Embedding of `process_static_data` (tdms2sequences.py).  The caller
guarantees the `DateTime` and `Value` properties are present (its guard).
Returns the remote calls issued.  `update_cdp_timeseries` is summarized by
its one remote call `tsCreate` (its payload is not inspected by any claim). -/
def process_static_data (r : Remote) (pf : String → Option ℚ)
    (dateTime : ℚ) (value : String) (assetName assetUid : Option String) :
    List RemoteCall :=
  let timestamp := pyInt (dateTime * 1000)
  match pf value with
  | none => []
  | some v =>
    match assetName with
    | none => []
    | some an =>
      if an = "" then []
      else
        let name := static_ts_name an
        let found := find_cdp_timeseries r name
        let creation :=
          match found.1 with
          | some _ => []
          | none => (find_cdp_asset_id r assetUid).2 ++ [RemoteCall.tsCreate name]
        found.2 ++ creation ++
          [RemoteCall.postDatapoints name [⟨timestamp, v⟩]]

/-- Embedding of `create_sequence` (tdms2sequences.py).  `metadata["NI_CM_AssetName"]`
and `metadata["name"]` are plain dict lookups: a missing key raises `KeyError`. -/
def create_sequence (r : Remote) (c : ChannelDesc) :
    Except StepError (SequenceReq × List RemoteCall) :=
  match c.niAssetName with
  | none => .error (StepError.keyError "NI_CM_AssetName")
  | some an =>
    match c.chanName with
    | none => .error (StepError.keyError "name")
    | some cn =>
      let name := underscoreSpaces (an ++ "-" ++ cn)
      let asset := find_cdp_asset_id r c.niAssetUid
      .ok (⟨name, asset.1,
            [⟨"time", c.timeType⟩, ⟨"value", c.dataType⟩], c.channelPath⟩,
           asset.2)

/-- Embedding of `create_seq_rows` (tdms2sequences.py): `next(iterator)` skips
the first dataframe row (raising `StopIteration` when there is none), then the
remaining rows are enumerated from 0; `columns[0]`/`columns[1]` are indexed
only inside the loop body (an `IndexError` when fewer than two columns exist
and at least one row is built). -/
def create_seq_rows (samples : List (String × ℚ)) (columns : List ColumnEnt) :
    Except StepError (List SeqRow) :=
  match samples with
  | [] => .error StepError.stopIteration
  | _ :: rest =>
    match rest with
    | [] => .ok []
    | _ :: _ =>
      match columns.get? 0, columns.get? 1 with
      | some c0, some c1 =>
        .ok (rest.enum.map fun p =>
          ⟨p.1, [(c0.id, CellVal.str p.2.1), (c1.id, CellVal.num p.2.2)]⟩)
      | _, _ => .error StepError.indexError

/-- Embedding of the per-channel body of the loop in `process_tdms_file`
(tdms2sequences.py): classify the channel, handle static values, or create a
sequence and post its rows.  Failures the script represents as values (float
parse failure, missing asset name on the static path, asset lookup miss, falsy
`post_sequences` result) yield an `.ok` outcome; a missing required property
on the waveform path propagates as an uncaught error. -/
def process_channel (r : Remote) (pf : String → Option ℚ) (onlyStatic : Bool)
    (c : ChannelDesc) : Except StepError (ChannelOutcome × List RemoteCall) :=
  if c.hasData = false then
    match c.valueProp, c.dateTime with
    | some v, some dt =>
      if v = "" then .ok (ChannelOutcome.noData, [])
      else .ok (ChannelOutcome.staticDone,
                process_static_data r pf dt v c.niAssetName c.niAssetUid)
    | _, _ => .ok (ChannelOutcome.noData, [])
  else if onlyStatic then .ok (ChannelOutcome.skippedOnlyStatic, [])
  else
    match create_sequence r c with
    | .error e => .error e
    | .ok (seqReq, c1) =>
      match r.postSequences seqReq with
      | none => .ok (ChannelOutcome.seqCreateFailed,
                     c1 ++ [RemoteCall.seqCreate seqReq.name])
      | some ent =>
        match create_seq_rows c.samples ent.columns with
        | .error e => .error e
        | .ok rows =>
          .ok (ChannelOutcome.seqPosted rows.length,
               c1 ++ [RemoteCall.seqCreate seqReq.name]
                  ++ [RemoteCall.postRows ent.id rows])

/-- Embedding of `process_tdms_file` (tdms2sequences.py): process every
channel of the artifact in order; an uncaught per-channel error propagates
(the `try` in `main` covers only `TdmsFile(fp)`). -/
def process_tdms_file (r : Remote) (pf : String → Option ℚ) (onlyStatic : Bool) :
    List ChannelDesc → Except StepError (List ChannelOutcome × List RemoteCall)
  | [] => .ok ([], [])
  | c :: rest => do
    let oc ← process_channel r pf onlyStatic c
    let rec_ ← process_tdms_file r pf onlyStatic rest
    .ok (oc.1 :: rec_.1, oc.2 ++ rec_.2)

/-- One input file of the TDMS run: either `TdmsFile(fp)` raised (caught by
`main`) or it parsed into a channel list. -/
inductive TdmsInput where
  | parseFail
  | parsed (channels : List ChannelDesc)

/-- Per-artifact outcome of the TDMS run. -/
inductive TdmsOutcome where
  | parseFailed
  | processed (res : List ChannelOutcome × List RemoteCall)

/-- Embedding of the file loop of `main` (tdms2sequences.py): a parse failure
is caught, logged and skipped (`continue`); an error escaping
`process_tdms_file` is not caught and terminates the run. -/
def tdms_main (r : Remote) (pf : String → Option ℚ) (onlyStatic : Bool) :
    List TdmsInput → Except StepError (List TdmsOutcome)
  | [] => .ok []
  | TdmsInput.parseFail :: rest =>
    (tdms_main r pf onlyStatic rest).map fun outs => TdmsOutcome.parseFailed :: outs
  | TdmsInput.parsed channels :: rest => do
    let res ← process_tdms_file r pf onlyStatic channels
    let outs ← tdms_main r pf onlyStatic rest
    .ok (TdmsOutcome.processed res :: outs)

/-- The `TimeData` named tuple of trends2datapoints.py (the metadata bag is
not modelled; no claim refers to it). -/
structure TimeData where
  name : String
  trendId : Option Nat
  assetId : String
  assetName : String
  deriving DecidableEq

/-- Timeseries name for a trend bundle (trends2datapoints.py lines 87-92):
asset full name, plus `" {Name}"` when the merged properties carry a truthy
`Name`, plus `" ({Unit})"` when they carry a truthy `Unit`, then spaces
replaced by underscores. -/
def bundle_ts_name (assetName : String) (propName propUnit : Option String) : String :=
  let n := assetName
  let n :=
    match propName with
    | some s => if s = "" then n else n ++ " " ++ s
    | none => n
  let n :=
    match propUnit with
    | some u => if u = "" then n else n ++ " (" ++ u ++ ")"
    | none => n
  underscoreSpaces n

/-- One data row of chartdata.xlsx as pandas yields it: the timestamp cell as
a pandas `Timestamp` (`.value` is its nanosecond epoch) and the value cell. -/
structure SpreadRow where
  ts : Int
  val : String
  deriving DecidableEq

/-- The rows `pandas.read_excel(fp, skiprows=[0, 1])` iterates over:
`skiprows=[0, 1]` drops the first two spreadsheet rows and the default
`header=0` then consumes the next row as the column labels, so the dataframe
rows start at the fourth spreadsheet row. -/
def excel_data_rows (rows : List SpreadRow) : List SpreadRow :=
  rows.drop 3

/-- Embedding of `process_datapoints_excel_file` (trends2datapoints.py): for
each dataframe row, `float(row[1])` is attempted (`ValueError` is caught and
the row dropped with a warning) and the timestamp is converted from
nanoseconds with Python floor division `// 10 ** 6`, yielding milliseconds. -/
def process_datapoints_excel_file (pf : String → Option ℚ)
    (rows : List SpreadRow) : List (Int × ℚ) :=
  (excel_data_rows rows).filterMap fun row =>
    (pf row.val).map fun v => (Int.fdiv row.ts (10 ^ 6), v)

/-- Embedding of `insert_cdp_datapoints` (trends2datapoints.py).  The function
first recurses on `datapoints[limit:]` — without passing `limit`, so the
recursive call uses the default 1000 — and only afterwards posts
`datapoints[:limit]`; the returned list is the sequence of posted batches in
posting order.  Polymorphic, as the Python function is untyped. -/
def insert_cdp_datapoints {α : Type} (dps : List α) (limit : Nat) : List (List α) :=
  if dps.length > limit then
    insert_cdp_datapoints (dps.drop limit) 1000 ++ [dps.take limit]
  else
    [dps.take limit]
termination_by dps.length + (if limit = 0 then 1 else 0)
decreasing_by
  simp only [List.length_drop]
  rcases Nat.eq_zero_or_pos limit with h0 | h0
  · simp only [h0, reduceIte]
    omega
  · have hne : limit ≠ 0 := by omega
    simp only [hne, reduceIte]
    omega

/-- Embedding of `process_datapoints` (trends2datapoints.py): asset lookup,
timeseries existence check, creation when absent, then batched datapoint
submission.  Returns the remote calls in order. -/
def process_datapoints (r : Remote) (ts : TimeData) (dps : List (Int × ℚ)) :
    List RemoteCall :=
  let asset := find_cdp_asset r ts.assetId
  let found := find_cdp_timeseries r ts.name
  let creation :=
    match found.1 with
    | some _ => []
    | none => [RemoteCall.tsCreate ts.name]
  let batches := insert_cdp_datapoints dps 1000
  asset.2 ++ found.2 ++ creation ++
    batches.map fun b => RemoteCall.postDatapoints ts.name (b.map fun p => ⟨p.1, p.2⟩)

/-- One input zip of the trends run.  `unreadable` models `zipfile.ZipFile`,
`json.load` or `pandas.read_excel` raising while opening/decoding the artifact
(nothing in trends2datapoints.py catches these); `readable` carries the
outcome of the structural checks of `process_timeseries_metadata` (`None` when
a required field is missing, which that function handles by logging) and the
spreadsheet rows. -/
inductive BundleInput where
  | unreadable (err : String)
  | readable (ts : Option TimeData) (rows : List SpreadRow)

/-- Embedding of one iteration of the file loop of `main`
(trends2datapoints.py): `process_inputs` runs (possibly raising), then
`process_datapoints` is called only when both the metadata and the extracted
datapoints are truthy (`if timeseries and datapoints:`).  Returns the remote
calls issued for the artifact. -/
def process_zip_artifact (r : Remote) (pf : String → Option ℚ) :
    BundleInput → Except String (List RemoteCall)
  | BundleInput.unreadable e => .error e
  | BundleInput.readable tsOpt rows =>
    let dps := process_datapoints_excel_file pf rows
    match tsOpt with
    | none => .ok []
    | some ts =>
      if dps.isEmpty then .ok []
      else .ok (process_datapoints r ts dps)

/-- Embedding of the file loop of `main` (trends2datapoints.py): artifacts are
processed in order; an exception while opening/decoding an artifact is not
caught and terminates the run, so later artifacts yield no outcome. -/
def trends_main (r : Remote) (pf : String → Option ℚ) :
    List BundleInput → Except String (List (List RemoteCall))
  | [] => .ok []
  | a :: rest => do
    let calls ← process_zip_artifact r pf a
    let outs ← trends_main r pf rest
    .ok (calls :: outs)

/-- The datapoints submitted by a list of remote calls (contents of all
`postDatapoints` calls, in order). -/
def postedPoints (calls : List RemoteCall) : List Datapoint :=
  calls.flatMap fun c =>
    match c with
    | RemoteCall.postDatapoints _ ps => ps
    | _ => []

/-- The names passed to timeseries creation calls in a list of remote calls. -/
def tsCreateNames (calls : List RemoteCall) : List String :=
  calls.filterMap fun c =>
    match c with
    | RemoteCall.tsCreate n => some n
    | _ => none

/-- Modelled from the spec: the record name as §4.2 describes it — "built by
concatenating asset display name and channel/trend name (and the unit, when
present), replacing spaces with underscores".  Used only to compare the spec's
naming rule with the names the source actually builds. -/
def specRecordName (assetName chName : String) (unit : Option String) : String :=
  underscoreSpaces
    (assetName ++ " " ++ chName ++
      (match unit with
       | some u => " " ++ u
       | none => ""))

/-- Fixture: a remote catalog that answers every query with no candidates and
fails every sequence creation. -/
def rEmpty : Remote :=
  ⟨fun _ => [], fun _ => [], fun _ => none⟩

/-- Fixture: a float parser stub for concrete tests, accepting a few decimal
literals. -/
def pfNat : String → Option ℚ :=
  fun s =>
    if s = "5" then some 5
    else if s = "7" then some 7
    else if s = "8" then some 8
    else none


theorem insert_cdp_datapoints_step {α : Type} (dps : List α) (limit : Nat)
    (h : dps.length > limit) :
    insert_cdp_datapoints dps limit
      = insert_cdp_datapoints (dps.drop limit) 1000 ++ [dps.take limit] := by
  rw [insert_cdp_datapoints.eq_def]
  simp [h]

theorem insert_cdp_datapoints_last {α : Type} (dps : List α) (limit : Nat)
    (h : ¬ dps.length > limit) :
    insert_cdp_datapoints dps limit = [dps] := by
  rw [insert_cdp_datapoints.eq_def]
  simp only [h, reduceIte]
  rw [List.take_of_length_le (Nat.not_lt.mp h)]

/-- C1 (amended): `insert_cdp_datapoints` splits the list into contiguous
chunks — the first of at most `limit` points, later ones of at most 1000
points, because the recursive call does not pass `limit` on — and submits the
chunks in reverse order (deepest recursion first): concatenating the
submitted batches in reverse yields the original list, and every batch holds
at most `max limit 1000` points. -/
theorem insert_cdp_datapoints_reverse_chunk_order {α : Type} (dps : List α) (limit : Nat) :
    ((insert_cdp_datapoints dps limit).reverse).flatten = dps
    ∧ ∀ b ∈ insert_cdp_datapoints dps limit, b.length ≤ max limit 1000 := by
  induction dps, limit using insert_cdp_datapoints.induct with
  | case1 dps limit h ih =>
    rw [insert_cdp_datapoints_step dps limit h]
    constructor
    · simp only [List.reverse_append, List.reverse_singleton, List.singleton_append,
        List.flatten_cons, ih.1, List.take_append_drop]
    · intro b hb
      rcases List.mem_append.mp hb with hb | hb
      · have := ih.2 b hb
        simp only [max_self] at this
        exact le_trans this (le_max_right _ _)
      · rcases List.mem_singleton.mp hb with rfl
        exact le_trans (by simp [List.length_take]) (le_max_left _ _)
  | case2 dps limit h =>
    rw [insert_cdp_datapoints_last dps limit h]
    refine ⟨by simp, ?_⟩
    intro b hb
    rcases List.mem_singleton.mp hb with rfl
    exact le_trans (Nat.not_lt.mp h) (le_max_left _ _)

/-- C1 (counterexample): posting the 2500 points `List.range 2500` with
`limit = 1000` issues three submissions of sizes 500, 1000, 1000 — not
1000, 1000, 500 — and the first submitted batch is the *last* 500 points of
the input, so the chunks are not submitted in original order. -/
theorem insert_cdp_datapoints_counterexample_2500 :
    (insert_cdp_datapoints (List.range 2500) 1000).map List.length = [500, 1000, 1000]
    ∧ (insert_cdp_datapoints (List.range 2500) 1000).map List.length ≠ [1000, 1000, 500]
    ∧ (insert_cdp_datapoints (List.range 2500) 1000).head?
        = some ((List.range 2500).drop 2000) := by
  have e1 : insert_cdp_datapoints (List.range 2500) 1000
      = [(List.range 2500).drop 2000,
         ((List.range 2500).drop 1000).take 1000,
         (List.range 2500).take 1000] := by
    rw [insert_cdp_datapoints_step _ _ (by simp),
        insert_cdp_datapoints_step _ _ (by simp),
        insert_cdp_datapoints_last _ _ (by simp),
        List.drop_drop]
    norm_num
  rw [e1]
  refine ⟨by simp, by simp, by norm_num⟩

/-- C2 (amended): asset resolution is not cached — every call of
`find_cdp_asset` issues exactly one remote asset lookup, so `k` calls for the
same `externalUid` within a run issue `k` remote lookups; `find_cdp_asset_id`
behaves the same except that a missing or empty uid issues no lookup. -/
theorem find_cdp_asset_one_lookup_per_call (r : Remote) (uid : String) (k : Nat) :
    (find_cdp_asset r uid).2 = [RemoteCall.assetQuery uid]
    ∧ ((List.replicate k (find_cdp_asset r uid).2).flatten).countP
        (fun c => decide (c = RemoteCall.assetQuery uid)) = k
    ∧ (uid ≠ "" → (find_cdp_asset_id r (some uid)).2 = [RemoteCall.assetQuery uid])
    ∧ (find_cdp_asset_id r none).2 = [] := by
  refine ⟨rfl, ?_, ?_, rfl⟩
  · induction k with
    | zero => simp
    | succ n ih =>
      rw [List.replicate_succ, List.flatten_cons, List.countP_append, ih]
      simp [find_cdp_asset, List.countP_cons]
      omega
  · intro h
    simp [find_cdp_asset_id, h]

/-- C2 (witness): the amended theorem instantiated at a concrete remote, uid
and call count, its truthy-uid hypothesis discharged. -/
theorem find_cdp_asset_one_lookup_per_call_witness :
    ("u" ≠ "")
    ∧ ((find_cdp_asset rEmpty "u").2 = [RemoteCall.assetQuery "u"]
       ∧ ((List.replicate 2 (find_cdp_asset rEmpty "u").2).flatten).countP
           (fun c => decide (c = RemoteCall.assetQuery "u")) = 2
       ∧ (find_cdp_asset_id rEmpty (some "u")).2 = [RemoteCall.assetQuery "u"]) :=
  ⟨by decide,
   (find_cdp_asset_one_lookup_per_call rEmpty "u" 2).1,
   (find_cdp_asset_one_lookup_per_call rEmpty "u" 2).2.1,
   (find_cdp_asset_one_lookup_per_call rEmpty "u" 2).2.2.1 (by decide)⟩

/-- C2 (counterexample): calling `find_cdp_asset` twice in the same run for
the same uid issues two remote asset lookups, not at most one; the same holds
for `find_cdp_asset_id`. -/
theorem asset_resolution_not_cached :
    ((find_cdp_asset rEmpty "u").2 ++ (find_cdp_asset rEmpty "u").2).countP
        (fun c => decide (c = RemoteCall.assetQuery "u")) = 2
    ∧ ¬ (((find_cdp_asset rEmpty "u").2 ++ (find_cdp_asset rEmpty "u").2).countP
        (fun c => decide (c = RemoteCall.assetQuery "u")) ≤ 1)
    ∧ ((find_cdp_asset_id rEmpty (some "u")).2 ++ (find_cdp_asset_id rEmpty (some "u")).2).countP
        (fun c => decide (c = RemoteCall.assetQuery "u")) = 2 := by
  refine ⟨by decide, by decide, by decide⟩

/-- C6 (confirmed): `find_cdp_timeseries` only ever returns an entity whose
`name` equals the queried name exactly, whatever candidate list the remote
prefix query returns; when no candidate matches exactly it returns nothing. -/
theorem find_cdp_timeseries_exact_match (r : Remote) (name : String) :
    (∀ e, (find_cdp_timeseries r name).1 = some e → e.name = some name)
    ∧ ((∀ e ∈ r.tsQueryResults name, e.name ≠ some name) →
        (find_cdp_timeseries r name).1 = none) := by
  constructor
  · intro e he
    simp only [find_cdp_timeseries] at he
    have hmem : e ∈ (r.tsQueryResults name).filter fun i => decide (i.name = some name) := by
      cases hf : (r.tsQueryResults name).filter fun i => decide (i.name = some name) with
      | nil => rw [hf] at he; cases he
      | cons x xs =>
        rw [hf] at he
        simp only [List.head?_cons, Option.some.injEq] at he
        rw [he]
        exact List.mem_cons_self e xs
    have := List.of_mem_filter hmem
    exact of_decide_eq_true this
  · intro hnone
    simp only [find_cdp_timeseries]
    rw [List.filter_eq_nil_iff.mpr ?_]
    · rfl
    · intro e he
      simp only [decide_eq_true_eq]
      exact hnone e he

/-- Fixture: a remote catalog whose prefix query for "Pump_1" returns a
candidate "Pump_10" sharing the prefix but not the exact name. -/
def rPump : Remote :=
  ⟨fun _ => [], fun _ => [⟨10, some "Pump_10"⟩], fun _ => none⟩

/-- C6 (witness): with a stored "Pump_10" returned by the prefix query for
"Pump_1", no candidate matches exactly and the lookup returns nothing — the
prefix-sharing candidate is never returned. -/
theorem find_cdp_timeseries_exact_match_witness :
    (∀ e ∈ rPump.tsQueryResults "Pump_1", e.name ≠ some "Pump_1")
    ∧ (find_cdp_timeseries rPump "Pump_1").1 = none :=
  ⟨by decide,
   (find_cdp_timeseries_exact_match rPump "Pump_1").2 (by decide)⟩

/-- Helper: `postedPoints` distributes over concatenation of call lists. -/
theorem postedPoints_append (a b : List RemoteCall) :
    postedPoints (a ++ b) = postedPoints a ++ postedPoints b := by
  simp [postedPoints]

/-- C7 (confirmed): for a static descriptor whose `DateTime` and `Value`
properties are present (the caller's guard) and whose asset name is truthy,
a parseable `Value` leads to exactly one submitted datapoint, with timestamp
`int(DateTime.timestamp() * 1000)` and the parsed float value; a `Value`
failing float parsing leads to no submitted datapoint at all. -/
theorem process_static_data_single_datapoint (r : Remote) (pf : String → Option ℚ)
    (dt : ℚ) (value : String) (an : String) (uid : Option String)
    (han : an ≠ "") :
    (∀ v, pf value = some v →
       postedPoints (process_static_data r pf dt value (some an) uid)
         = [⟨pyInt (dt * 1000), v⟩])
    ∧ (pf value = none →
       postedPoints (process_static_data r pf dt value (some an) uid) = []) := by
  constructor
  · intro v hv
    simp only [process_static_data, hv, if_neg han]
    cases hfound : (find_cdp_timeseries r (static_ts_name an)).1 with
    | some e =>
      simp [postedPoints_append, postedPoints, find_cdp_timeseries]
    | none =>
      cases uid with
      | none =>
        simp [postedPoints_append, postedPoints, find_cdp_timeseries, find_cdp_asset_id]
      | some u =>
        by_cases hu : u = "" <;>
          simp [postedPoints_append, postedPoints, find_cdp_timeseries,
            find_cdp_asset_id, hu]
  · intro hv
    simp [process_static_data, hv, postedPoints]

/-- C7 (witness): the theorem instantiated at a concrete static descriptor
(epoch 1.5 s, value string "7", asset "Pump 1"), both branches' hypotheses
discharged. -/
theorem process_static_data_single_datapoint_witness :
    ("Pump 1" ≠ "")
    ∧ pfNat "7" = some 7
    ∧ postedPoints (process_static_data rEmpty pfNat (3 / 2) "7" (some "Pump 1") none)
        = [⟨pyInt ((3 / 2 : ℚ) * 1000), 7⟩]
    ∧ pfNat "x" = none
    ∧ postedPoints (process_static_data rEmpty pfNat (3 / 2) "x" (some "Pump 1") none) = [] :=
  ⟨by decide, by decide,
   (process_static_data_single_datapoint rEmpty pfNat (3 / 2) "7" "Pump 1" none
      (by decide)).1 7 (by decide),
   by decide,
   (process_static_data_single_datapoint rEmpty pfNat (3 / 2) "x" "Pump 1" none
      (by decide)).2 (by decide)⟩

/-- C8 (confirmed): for a mappable waveform channel, the sequence request has
exactly the two columns `time` (typed by the nanosecond time track's element
type) and `value` (typed by the data buffer's element type); and for a
channel with `n ≥ 1` samples and server columns of length at least two, row
construction succeeds with exactly `n - 1` rows (the first dataframe row is
skipped) whose indices are `0, 1, ...` with no gaps, in emission order. -/
theorem waveform_sequence_columns_and_rows (r : Remote) (c : ChannelDesc)
    (an cn : String) (h1 : c.niAssetName = some an) (h2 : c.chanName = some cn)
    (cols : List ColumnEnt) (hcols : 2 ≤ cols.length)
    (hn : 1 ≤ c.samples.length) :
    (∃ req calls, create_sequence r c = .ok (req, calls)
        ∧ req.columns = [⟨"time", c.timeType⟩, ⟨"value", c.dataType⟩]
        ∧ req.columns.length = 2)
    ∧ (∃ rows, create_seq_rows c.samples cols = .ok rows
        ∧ rows.length = c.samples.length - 1
        ∧ ∀ j (hj : j < rows.length), (rows.get ⟨j, hj⟩).index = j) := by
  constructor
  · refine ⟨⟨underscoreSpaces (an ++ "-" ++ cn), (find_cdp_asset_id r c.niAssetUid).1,
        [⟨"time", c.timeType⟩, ⟨"value", c.dataType⟩], c.channelPath⟩,
      (find_cdp_asset_id r c.niAssetUid).2, ?_, rfl, rfl⟩
    simp [create_sequence, h1, h2]
  · cases hs : c.samples with
    | nil =>
      rw [hs] at hn
      exact absurd hn (by simp)
    | cons s rest =>
      cases rest with
      | nil =>
        refine ⟨[], by simp [create_seq_rows], by simp [hs], ?_⟩
        intro j hj
        cases hj
      | cons s2 rest2 =>
        have hc0 := List.get?_eq_get (show 0 < cols.length by omega)
        have hc1 := List.get?_eq_get (show 1 < cols.length by omega)
        have hrows : create_seq_rows (s :: s2 :: rest2) cols
            = .ok ((s2 :: rest2).enum.map fun p =>
                ⟨p.1, [((cols.get ⟨0, by omega⟩).id, CellVal.str p.2.1),
                       ((cols.get ⟨1, by omega⟩).id, CellVal.num p.2.2)]⟩) := by
          simp only [create_seq_rows, hc0, hc1]
        refine ⟨_, hrows, ?_, ?_⟩
        · simp
        · intro j hj
          simp [List.get_eq_getElem, List.getElem_map, List.getElem_enum]

/-- Fixture: a concrete waveform channel with three samples. -/
def chanWave : ChannelDesc :=
  ⟨none, none, some "Pump 1", some "uid-1", some "Vibration", "grp/Vibration",
   "int64", "float64", [("t0", 1), ("t1", 2), ("t2", 3)]⟩

/-- Fixture: two server-assigned columns. -/
def colsTwo : List ColumnEnt := [⟨101⟩, ⟨102⟩]

/-- C8 (witness): the theorem instantiated at a concrete three-sample channel
and a concrete two-column list, all hypotheses discharged. -/
theorem waveform_sequence_columns_and_rows_witness :
    (chanWave.niAssetName = some "Pump 1" ∧ chanWave.chanName = some "Vibration"
      ∧ 2 ≤ colsTwo.length ∧ 1 ≤ chanWave.samples.length)
    ∧ ((∃ req calls, create_sequence rEmpty chanWave = .ok (req, calls)
          ∧ req.columns = [⟨"time", chanWave.timeType⟩, ⟨"value", chanWave.dataType⟩]
          ∧ req.columns.length = 2)
       ∧ (∃ rows, create_seq_rows chanWave.samples colsTwo = .ok rows
          ∧ rows.length = chanWave.samples.length - 1
          ∧ ∀ j (hj : j < rows.length), (rows.get ⟨j, hj⟩).index = j)) :=
  ⟨⟨rfl, rfl, by decide, by decide⟩,
   waveform_sequence_columns_and_rows rEmpty chanWave "Pump 1" "Vibration" rfl rfl
     colsTwo (by decide) (by decide)⟩

/-- Helper: a channel classified as having data has a nonempty sample list. -/
theorem ChannelDesc.samples_ne_nil_of_hasData (c : ChannelDesc) (h : c.hasData = true) :
    c.samples ≠ [] := by
  intro hnil
  rw [ChannelDesc.hasData, hnil] at h
  cases h

/-- Helper: under the two well-behavedness hypotheses — every data channel
carries the `NI_CM_AssetName` and `name` properties, and every sequence the
remote creates comes back with at least two columns — `process_channel`
never raises. -/
theorem process_channel_ok (r : Remote) (pf : String → Option ℚ) (os : Bool)
    (c : ChannelDesc)
    (hmap : c.hasData = true → c.niAssetName.isSome ∧ c.chanName.isSome)
    (hcols : ∀ q e, r.postSequences q = some e → 2 ≤ e.columns.length) :
    ∃ o cs, process_channel r pf os c = .ok (o, cs) := by
  by_cases hd : c.hasData = true
  · obtain ⟨han0, hcn0⟩ := hmap hd
    obtain ⟨an, han⟩ := Option.isSome_iff_exists.mp han0
    obtain ⟨cn, hcn⟩ := Option.isSome_iff_exists.mp hcn0
    have hcs : create_sequence r c = .ok
        (⟨underscoreSpaces (an ++ "-" ++ cn), (find_cdp_asset_id r c.niAssetUid).1,
          [⟨"time", c.timeType⟩, ⟨"value", c.dataType⟩], c.channelPath⟩,
         (find_cdp_asset_id r c.niAssetUid).2) := by
      simp [create_sequence, han, hcn]
    cases os with
    | true =>
      exact ⟨ChannelOutcome.skippedOnlyStatic, [], by simp [process_channel, hd]⟩
    | false =>
      rcases hps : r.postSequences ⟨underscoreSpaces (an ++ "-" ++ cn),
          (find_cdp_asset_id r c.niAssetUid).1,
          [⟨"time", c.timeType⟩, ⟨"value", c.dataType⟩], c.channelPath⟩ with _ | ent
      · exact ⟨ChannelOutcome.seqCreateFailed,
          (find_cdp_asset_id r c.niAssetUid).2
            ++ [RemoteCall.seqCreate (underscoreSpaces (an ++ "-" ++ cn))],
          by simp [process_channel, hd, hcs, hps]⟩
      · have hne := ChannelDesc.samples_ne_nil_of_hasData c hd
        rcases hsmp : c.samples with _ | ⟨s, rest⟩
        · exact absurd hsmp hne
        rcases rest with _ | ⟨s2, rest2⟩
        · exact ⟨ChannelOutcome.seqPosted 0,
            (find_cdp_asset_id r c.niAssetUid).2
              ++ [RemoteCall.seqCreate (underscoreSpaces (an ++ "-" ++ cn))]
              ++ [RemoteCall.postRows ent.id []],
            by simp [process_channel, hd, hcs, hps, create_seq_rows, hsmp]⟩
        · have h2 := hcols _ _ hps
          have hc0 : ent.columns[0]? = some (ent.columns.get ⟨0, by omega⟩) := by
            rw [List.getElem?_eq_getElem (by omega)]
            simp [List.get_eq_getElem]
          have hc1 : ent.columns[1]? = some (ent.columns.get ⟨1, by omega⟩) := by
            rw [List.getElem?_eq_getElem (by omega)]
            simp [List.get_eq_getElem]
          refine ⟨ChannelOutcome.seqPosted ((s2 :: rest2).enum.map fun p =>
              (⟨p.1, [((ent.columns.get ⟨0, by omega⟩).id, CellVal.str p.2.1),
                      ((ent.columns.get ⟨1, by omega⟩).id, CellVal.num p.2.2)]⟩ : SeqRow)).length,
            (find_cdp_asset_id r c.niAssetUid).2
              ++ [RemoteCall.seqCreate (underscoreSpaces (an ++ "-" ++ cn))]
              ++ [RemoteCall.postRows ent.id ((s2 :: rest2).enum.map fun p =>
                  ⟨p.1, [((ent.columns.get ⟨0, by omega⟩).id, CellVal.str p.2.1),
                         ((ent.columns.get ⟨1, by omega⟩).id, CellVal.num p.2.2)]⟩)], ?_⟩
          simp [process_channel, hd, hcs, hps, create_seq_rows, hsmp, hc0, hc1]
  · have hd0 : c.hasData = false := by
      cases hhd : c.hasData
      · rfl
      · exact absurd hhd hd
    rcases hv : c.valueProp with _ | v
    · exact ⟨ChannelOutcome.noData, [], by simp [process_channel, hd0, hv]⟩
    · rcases hdt : c.dateTime with _ | dt
      · exact ⟨ChannelOutcome.noData, [], by simp [process_channel, hd0, hv, hdt]⟩
      · by_cases hvv : v = ""
        · exact ⟨ChannelOutcome.noData, [], by simp [process_channel, hd0, hv, hdt, hvv]⟩
        · exact ⟨ChannelOutcome.staticDone,
            process_static_data r pf dt v c.niAssetName c.niAssetUid,
            by simp [process_channel, hd0, hv, hdt, hvv]⟩

/-- C4 (amended): channel-level failures the script represents as values
(no-data rejection, static float-parse failure, static missing asset name,
asset-lookup miss, falsy sequence-creation result) are isolated to their
channel: provided every data channel carries the `NI_CM_AssetName` and `name`
properties and created sequences come back with at least two columns, the
artifact completes with one outcome per channel, and each channel's outcome
is exactly what processing that channel alone produces, independent of the
other channels. -/
theorem process_tdms_file_channel_isolation (r : Remote) (pf : String → Option ℚ)
    (os : Bool) (channels : List ChannelDesc)
    (hmap : ∀ c ∈ channels, c.hasData = true → c.niAssetName.isSome ∧ c.chanName.isSome)
    (hcols : ∀ q e, r.postSequences q = some e → 2 ≤ e.columns.length) :
    ∃ outs calls, process_tdms_file r pf os channels = .ok (outs, calls)
      ∧ outs.length = channels.length
      ∧ ∀ i (hi : i < channels.length) (ho : i < outs.length),
          ∃ ccalls, process_channel r pf os (channels.get ⟨i, hi⟩)
            = .ok (outs.get ⟨i, ho⟩, ccalls) := by
  induction channels with
  | nil =>
    exact ⟨[], [], rfl, rfl, fun i hi => absurd hi (by simp)⟩
  | cons c rest ih =>
    obtain ⟨o, cs, hoc⟩ :=
      process_channel_ok r pf os c (hmap c (List.mem_cons_self c rest)) hcols
    obtain ⟨outs, calls, hrec, hlen, hidx⟩ :=
      ih fun x hx => hmap x (List.mem_cons_of_mem c hx)
    refine ⟨o :: outs, cs ++ calls, ?_, by simp [hlen], ?_⟩
    · simp only [process_tdms_file, hoc, hrec]
      rfl
    · intro i hi ho
      cases i with
      | zero => exact ⟨cs, by simpa using hoc⟩
      | succ n =>
        have hn : n < rest.length := by simpa using hi
        have hno : n < outs.length := by simpa using ho
        obtain ⟨cc, hcc⟩ := hidx n hn hno
        exact ⟨cc, by simpa using hcc⟩

/-- Fixture: a static-value channel (no waveform data, truthy `Value` and
`DateTime`, asset name present). -/
def chanStaticOk : ChannelDesc :=
  ⟨some "5", some 0, some "Pump 1", none, some "static", "grp/static",
   "int64", "float64", []⟩

/-- C4 (witness): the isolation theorem instantiated at a concrete two-channel
artifact (a waveform channel and a static channel), both hypotheses
discharged. -/
theorem process_tdms_file_channel_isolation_witness :
    (∀ c ∈ [chanWave, chanStaticOk], c.hasData = true →
        c.niAssetName.isSome ∧ c.chanName.isSome)
    ∧ (∀ q e, rEmpty.postSequences q = some e → 2 ≤ e.columns.length)
    ∧ (∃ outs calls,
        process_tdms_file rEmpty pfNat false [chanWave, chanStaticOk] = .ok (outs, calls)
        ∧ outs.length = ([chanWave, chanStaticOk] : List ChannelDesc).length
        ∧ ∀ i (hi : i < ([chanWave, chanStaticOk] : List ChannelDesc).length)
            (ho : i < outs.length),
            ∃ ccalls, process_channel rEmpty pfNat false
                (([chanWave, chanStaticOk] : List ChannelDesc).get ⟨i, hi⟩)
              = .ok (outs.get ⟨i, ho⟩, ccalls)) := by
  have hA : ∀ c ∈ [chanWave, chanStaticOk], c.hasData = true →
      c.niAssetName.isSome ∧ c.chanName.isSome := by decide
  have hB : ∀ q e, rEmpty.postSequences q = some e → 2 ≤ e.columns.length := by
    intro q e h
    simp [rEmpty] at h
  exact ⟨hA, hB,
    process_tdms_file_channel_isolation rEmpty pfNat false [chanWave, chanStaticOk] hA hB⟩

/-- Fixture: a channel with waveform data whose merged properties lack the
`NI_CM_AssetName` key. -/
def chanNoAssetName : ChannelDesc :=
  ⟨none, none, none, none, some "ch1", "grp/ch1", "int64", "float64", [("t0", 1)]⟩

/-- C4 (counterexample): a data channel whose merged properties lack
`NI_CM_AssetName` raises an uncaught `KeyError` in `create_sequence`
(tdms2sequences.py line 110), so the artifact aborts before its remaining
channels are attempted — even though the second channel on its own processes
fine.  A missing-required-property mapping rejection is therefore *not*
isolated to its channel, contradicting the claim. -/
theorem missing_asset_key_aborts_artifact :
    process_tdms_file rEmpty pfNat false [chanNoAssetName, chanStaticOk]
      = .error (StepError.keyError "NI_CM_AssetName")
    ∧ (∃ o cs, process_channel rEmpty pfNat false chanStaticOk = .ok (o, cs)) := by
  constructor
  · rfl
  · exact ⟨ChannelOutcome.staticDone,
      process_static_data rEmpty pfNat 0 "5" (some "Pump 1") none, rfl⟩

/-- C3 (amended): on the waveform path a parse failure is caught, logged and
skipped, and every remaining artifact is still processed; on the bundle path
only *structural* metadata failures (handled inside
`process_timeseries_metadata`, yielding no `TimeData`) are skipped — an
artifact that cannot be opened or decoded raises an uncaught exception, and
the run terminates at that artifact. -/
theorem parse_failure_handling_per_path (r : Remote) (pf : String → Option ℚ)
    (os : Bool) (rest : List TdmsInput) (e : String)
    (brest : List BundleInput) (rows : List SpreadRow) :
    tdms_main r pf os (TdmsInput.parseFail :: rest)
      = (tdms_main r pf os rest).map (fun outs => TdmsOutcome.parseFailed :: outs)
    ∧ trends_main r pf (BundleInput.unreadable e :: brest) = .error e
    ∧ trends_main r pf (BundleInput.readable none rows :: brest)
      = (trends_main r pf brest).map (fun outs => [] :: outs) := by
    refine ⟨rfl, rfl, ?_⟩
    cases htm : trends_main r pf brest with
    | error err =>
      simp only [trends_main, process_zip_artifact, htm]
      rfl
    | ok outs =>
      simp only [trends_main, process_zip_artifact, htm]
      rfl

/-- Fixture: a syntactically fine bundle metadata record. -/
def tdGood : TimeData := ⟨"Pump_1", none, "77", "Pump 1"⟩

/-- C3 (counterexample): an unreadable first bundle artifact terminates the
trends run — the second, perfectly processable artifact yields no outcome —
whereas the same artifact alone is processed, and on the waveform path a
parse failure is skipped and the next artifact is still processed. -/
theorem unreadable_bundle_terminates_run :
    trends_main rEmpty pfNat
        [BundleInput.unreadable "bad zip", BundleInput.readable (some tdGood) []]
      = .error "bad zip"
    ∧ trends_main rEmpty pfNat [BundleInput.readable (some tdGood) []] = .ok [[]]
    ∧ tdms_main rEmpty pfNat false [TdmsInput.parseFail, TdmsInput.parsed [chanStaticOk]]
      = .ok [TdmsOutcome.parseFailed,
             TdmsOutcome.processed ([ChannelOutcome.staticDone],
               process_static_data rEmpty pfNat 0 "5" (some "Pump 1") none)] :=
  ⟨rfl, rfl, rfl⟩

/-- C5 (counterexample): on the static path the timeseries name is the asset
display name alone (tdms2sequences.py line 99) — for asset "Pump 1" and
channel "Temp" the code produces "Pump_1", not the spec's concatenation
"Pump_1_Temp", so the name is *not* built from the channel name there. -/
theorem static_name_omits_channel_name :
    static_ts_name "Pump 1" = "Pump_1"
    ∧ specRecordName "Pump 1" "Temp" none = "Pump_1_Temp"
    ∧ static_ts_name "Pump 1" ≠ specRecordName "Pump 1" "Temp" none := by
  refine ⟨by decide, by decide, by decide⟩

/-- C5 (amended): naming is deterministic but its shape differs per path —
the bundle path concatenates asset name, trend name (when truthy) and
parenthesised unit (when truthy), spaces replaced by underscores; the
waveform path concatenates asset name and channel name with a hyphen (no
unit); the static path uses the asset display name alone. -/
theorem record_name_construction (a c u : String) (hc : c ≠ "") (hu : u ≠ "") :
    bundle_ts_name a (some c) (some u)
      = underscoreSpaces (a ++ " " ++ c ++ " (" ++ u ++ ")")
    ∧ bundle_ts_name a (some c) none = underscoreSpaces (a ++ " " ++ c)
    ∧ bundle_ts_name a none none = underscoreSpaces a
    ∧ static_ts_name a = underscoreSpaces a
    ∧ ∀ r desc, desc.niAssetName = some a → desc.chanName = some c →
        ∃ req calls, create_sequence r desc = .ok (req, calls)
          ∧ req.name = underscoreSpaces (a ++ "-" ++ c) := by
  refine ⟨by simp [bundle_ts_name, hc, hu], by simp [bundle_ts_name, hc], rfl, rfl, ?_⟩
  intro r desc h1 h2
  exact ⟨⟨underscoreSpaces (a ++ "-" ++ c), (find_cdp_asset_id r desc.niAssetUid).1,
      [⟨"time", desc.timeType⟩, ⟨"value", desc.dataType⟩], desc.channelPath⟩,
    (find_cdp_asset_id r desc.niAssetUid).2, by simp [create_sequence, h1, h2], rfl⟩

/-- C5 (witness): the amended naming theorem instantiated at asset "Pump 1",
channel/trend "Temp", unit "deg C", with the truthiness hypotheses
discharged. -/
theorem record_name_construction_witness :
    ("Temp" ≠ "" ∧ "deg C" ≠ "")
    ∧ bundle_ts_name "Pump 1" (some "Temp") (some "deg C") = "Pump_1_Temp_(deg_C)"
    ∧ static_ts_name "Pump 1" = "Pump_1"
    ∧ ∃ req calls, create_sequence rEmpty chanWave = .ok (req, calls)
        ∧ req.name = "Pump_1-Vibration" := by
  have h := record_name_construction "Pump 1" "Temp" "deg C" (by decide) (by decide)
  refine ⟨⟨by decide, by decide⟩, ?_, h.2.2.2.1, ?_⟩
  · rw [h.1]
    decide
  · have h2 := record_name_construction "Pump 1" "Vibration" "u" (by decide) (by decide)
    obtain ⟨req, calls, hcs, hname⟩ := h2.2.2.2.2 rEmpty chanWave rfl rfl
    exact ⟨req, calls, hcs, by rw [hname]; decide⟩

/-- C9 (amended): spreadsheet extraction drops the first *three* rows — the
two rows of `skiprows=[0, 1]` plus the row consumed as column labels by the
reader's default header — and each remaining row yields a
`(millisecondTimestamp, value)` pair exactly when its value parses, parse
failures being dropped without aborting extraction. -/
theorem excel_extraction_rows (pf : String → Option ℚ) (r1 r2 r3 : SpreadRow)
    (rest : List SpreadRow) :
    process_datapoints_excel_file pf (r1 :: r2 :: r3 :: rest)
      = rest.filterMap (fun row => (pf row.val).map fun v => (Int.fdiv row.ts (10 ^ 6), v))
    ∧ (process_datapoints_excel_file pf (r1 :: r2 :: r3 :: rest)).length ≤ rest.length := by
  refine ⟨rfl, ?_⟩
  exact List.length_filterMap_le _ _

/-- C9 (counterexample): a spreadsheet with two header rows and two data rows
yields only one pair — the first data row is consumed as the header — so not
every row after the first two yields a pair, contradicting the claim. -/
theorem excel_header_consumes_first_data_row :
    process_datapoints_excel_file pfNat
        [⟨0, "h1"⟩, ⟨0, "h2"⟩, ⟨2000000, "7"⟩, ⟨3000000, "8"⟩]
      = [(3, 8)]
    ∧ (process_datapoints_excel_file pfNat
        [⟨0, "h1"⟩, ⟨0, "h2"⟩, ⟨2000000, "7"⟩, ⟨3000000, "8"⟩]).length ≠ 2 := by
  refine ⟨by decide, by decide⟩

/-- C10 (confirmed): a bundle whose metadata parses into a `TimeData` but
whose spreadsheet yields no parseable datapoints is skipped before
`process_datapoints` runs — the artifact issues no remote call of any kind,
and a run over just that artifact issues none either. -/
theorem empty_datapoints_no_remote_calls (r : Remote) (pf : String → Option ℚ)
    (td : TimeData) (rows : List SpreadRow)
    (h : process_datapoints_excel_file pf rows = []) :
    process_zip_artifact r pf (BundleInput.readable (some td) rows) = .ok []
    ∧ trends_main r pf [BundleInput.readable (some td) rows] = .ok [[]] := by
  constructor
  · simp [process_zip_artifact, h]
  · simp [trends_main, process_zip_artifact, h]
    rfl

/-- Fixture: spreadsheet rows whose only data row fails float parsing. -/
def rowsJunk : List SpreadRow := [⟨0, "h1"⟩, ⟨0, "h2"⟩, ⟨0, "h3"⟩, ⟨0, "x"⟩]

/-- C10 (witness): the theorem instantiated at a concrete bundle whose only
data row fails to parse, the zero-parseable-rows hypothesis discharged. -/
theorem empty_datapoints_no_remote_calls_witness :
    process_datapoints_excel_file pfNat rowsJunk = []
    ∧ process_zip_artifact rEmpty pfNat (BundleInput.readable (some tdGood) rowsJunk) = .ok []
    ∧ trends_main rEmpty pfNat [BundleInput.readable (some tdGood) rowsJunk] = .ok [[]] :=
  ⟨by decide,
   (empty_datapoints_no_remote_calls rEmpty pfNat tdGood rowsJunk (by decide)).1,
   (empty_datapoints_no_remote_calls rEmpty pfNat tdGood rowsJunk (by decide)).2⟩
